import Mathlib

/-!
Shallow embedding of the `threejs-test-task` repository:
`src/client/app/scene/book/book.component.ts` (the `BookSceneComponent`)
and `src/client/app/app-routing.module.ts` (the route table).

Modelling conventions:
* JS numbers are rationals; the JS non-values `undefined`, `null` and `NaN`
  are collapsed into a single "no number" value (`Option.none`), since every
  code path the claims touch treats them interchangeably (all are falsy, and
  arithmetic on any of them yields `NaN`).
* The three.js library (`Matrix4.fromArray`, `Matrix4.toArray`,
  `Matrix4.decompose`, `PerspectiveCamera`) is embedded at the granularity
  its documented semantics fix: `fromArray` copies `array[i]` for
  `i = 0..15` (out-of-range reads give `undefined`), `toArray` returns the
  16-element `elements` array, `decompose` writes the translation entries
  `elements[12..14]` into `position` and derives `quaternion` and `scale`
  purely from the matrix.  The quaternion and scale components are pure
  functions of the matrix computed inside the library (out of scope per the
  spec), and every claim about orientation factors through equality of the
  matrix, so the camera record tracks `position` and `matrix`.
* `JSON.stringify` of an array of numbers produces a string that
  `JSON.parse` maps back to the same array; a string that is not valid JSON
  makes `JSON.parse` throw.  Stored strings are represented by that
  observable behaviour (`JsString`).
-/

namespace BookScene

/-- A JS numeric value: `some q` is a finite number, `none` collapses
`undefined` / `null` / `NaN` (see the conventions above). -/
abbrev JVal := Option ℚ

/-- JS `+` on numeric values: `NaN`/`undefined` poison the result. -/
def jAdd : JVal → JVal → JVal
  | some a, some b => some (a + b)
  | _, _ => none

/-- JS `-` on numeric values: `NaN`/`undefined` poison the result. -/
def jSub : JVal → JVal → JVal
  | some a, some b => some (a - b)
  | _, _ => none

/-- A stored camera-state string, represented by how `JSON.parse` treats it:
`jsonArr xs` is the JSON text of an array (entries are numbers or nulls),
`notJson` is any string `JSON.parse` rejects by throwing. -/
inductive JsString
  | jsonArr (xs : List JVal)
  | notJson
  deriving DecidableEq, Repr

/-- `JSON.parse` on a stored string: returns the array, or throws. -/
def parseJson : JsString → Except Unit (List JVal)
  | .jsonArr xs => .ok xs
  | .notJson => .error ()

/-- The `elements` array of a three.js `Matrix4` (always 16 entries for
matrices built by the component's code paths). -/
abbrev Matrix4 := List JVal

/-- Entry `i` of the elements array; out-of-range reads give `undefined`,
exactly as JS array indexing does. -/
def mEntry (m : Matrix4) (i : ℕ) : JVal := (m[i]?).join

/-- three.js `Matrix4.fromArray`: copies `array[i]` for `i = 0..15` into
`elements`; a too-short input leaves the tail entries `undefined`. -/
def fromArray (xs : List JVal) : Matrix4 :=
  (List.range 16).map fun i => (xs[i]?).join

/-- The identity matrix a freshly constructed three.js object carries. -/
def identityMatrix : Matrix4 :=
  [some 1, some 0, some 0, some 0,
   some 0, some 1, some 0, some 0,
   some 0, some 0, some 1, some 0,
   some 0, some 0, some 0, some 1]

/-- A three.js `Vector3` as used for the camera position. -/
structure Vec3 where
  x : JVal
  y : JVal
  z : JVal
  deriving DecidableEq, Repr

/-- `Matrix4.decompose` writes the translation entries `elements[12..14]`
into the position vector (library source; quaternion and scale are likewise
pure functions of the matrix, see the module conventions). -/
def decomposePos (m : Matrix4) : Vec3 :=
  ⟨mEntry m 12, mEntry m 13, mEntry m 14⟩

/-- The camera state the component manipulates: constructor parameters of
`new THREE.PerspectiveCamera(fov, aspect, near, far)`, the `position`
vector, and the `matrix` elements array.  Orientation (quaternion) and
scale are pure functions of `matrix` computed by the library and are
determined by it, so they are not duplicated here. -/
structure Camera where
  fov : ℚ
  aspect : ℚ
  near : ℚ
  far : ℚ
  position : Vec3
  matrix : Matrix4
  deriving DecidableEq, Repr

/-- `new THREE.PerspectiveCamera(fov, aspect, near, far)`: position starts
at the origin and the local matrix at the identity. -/
def newPerspectiveCamera (fov aspect near far : ℚ) : Camera :=
  { fov, aspect, near, far
    position := ⟨some 0, some 0, some 0⟩
    matrix := identityMatrix }

/-- The truthy branch of `setCameraState`:
`this.camera.matrix.fromArray(JSON.parse(this.cameraState))` followed by
`this.camera.matrix.decompose(position, quaternion, scale)`, applied to an
already-parsed array `xs`. -/
def restoreCam (xs : List JVal) (cam : Camera) : Camera :=
  { cam with
    matrix := fromArray xs
    position := decomposePos (fromArray xs) }

/-- The default position set by the else branch of `setCameraState`:
`this.camera.position.set(15, 30, 70)`. -/
def defaultPosition : Vec3 := ⟨some 15, some 30, some 70⟩

/-- `setCameraState` acting on the camera, given the current value of the
`cameraState` field (`none` collapses `undefined` / `null`, both falsy):
if a state string is present, `JSON.parse` it (this can throw, the `.error`
case) and load it into the matrix, then decompose; otherwise set the
documented default position and leave the matrix untouched. -/
def setCameraStateCam (st : Option JsString) (cam : Camera) :
    Except Unit Camera :=
  match st with
  | some s =>
    match parseJson s with
    | .ok xs => .ok (restoreCam xs cam)
    | .error e => .error e
  | none => .ok { cam with position := defaultPosition }

/-- `saveCurrentScene`'s persistence payload:
`JSON.stringify(this.camera.matrix.toArray())`; `toArray` returns the
16-entry elements array and stringify encodes it as a JSON array. -/
def serializeCamera (cam : Camera) : JsString := .jsonArr cam.matrix

/-- The component fields the claims are about: `camera` is declared with a
definite-assignment assertion and is absent until `createScene` runs;
`cameraState : string | null` starts undefined; `loadingProgress` starts
at `1`; `loadingState` starts `true`. -/
structure Component where
  camera : Option Camera
  cameraState : Option JsString
  loadingProgress : Option ℚ
  loadingState : Bool
  deriving DecidableEq, Repr

/-- The component's field initializers. -/
def initialComponent : Component :=
  { camera := none
    cameraState := none
    loadingProgress := some 1
    loadingState := true }

/-- Keyboard codes for the four arrow keys.  Modelled from the spec: the
`KEY_CODE` constants live in `client/app/share`, which is not among the
provided sources; the spec's input table lists exactly the four arrow keys,
embedded here as the standard `KeyboardEvent.key` values (four distinct
strings). -/
def RIGHT_ARROW : String := "ArrowRight"

/-- Modelled from the spec: left-arrow key code (see `RIGHT_ARROW`). -/
def LEFT_ARROW : String := "ArrowLeft"

/-- Modelled from the spec: up-arrow key code (see `RIGHT_ARROW`). -/
def UP_ARROW : String := "ArrowUp"

/-- Modelled from the spec: down-arrow key code (see `RIGHT_ARROW`). -/
def DOWN_ARROW : String := "ArrowDown"

/-- The `window:keyup` handler `keyEvent`: returns immediately when no
camera exists; otherwise a `switch` on `event.key` over the four arrow
keys adjusts one position axis by 5, and a key matching no case is a
no-op (the switch has no default case). -/
def keyEvent (key : String) (c : Component) : Component :=
  match c.camera with
  | none => c
  | some cam =>
    if key = RIGHT_ARROW then
      let pos := { cam.position with x := jAdd cam.position.x (some 5) }
      { c with camera := some { cam with position := pos } }
    else if key = LEFT_ARROW then
      let pos := { cam.position with x := jSub cam.position.x (some 5) }
      { c with camera := some { cam with position := pos } }
    else if key = UP_ARROW then
      let pos := { cam.position with y := jAdd cam.position.y (some 5) }
      { c with camera := some { cam with position := pos } }
    else if key = DOWN_ARROW then
      let pos := { cam.position with y := jSub cam.position.y (some 5) }
      { c with camera := some { cam with position := pos } }
    else c

/-- The loader's progress callback:
`loadingProgress = (xhr.loaded / xhr.total) * 100`, then
`this.loadingState ? (this.loadingProgress -= 5) : null`. -/
def onProgress (loaded total : ℚ) (c : Component) : Component :=
  let p := loaded / total * 100
  { c with loadingProgress := some (if c.loadingState then p - 5 else p) }

/-!
The `ngOnInit` subscription and `createScene`, and the two possible orders
in which the camera-state lookup and the surface initialization complete.

`getCameraState().pipe(take(1)).subscribe(next, error, complete)`: on a
successful response `take(1)` delivers one `next` immediately followed by
`complete`; on a failed response only the `error` callback runs (RxJS never
invokes the completion callback of an errored subscription).
-/

/-- Outcome of the camera-state lookup. `success st` carries
`state?.cameraPosition || null` already collapsed to `Option` (a `null`
response, a `null` `cameraPosition` and an empty string are all mapped to
`none` by the `||` in the next-callback); `failure` is an errored read. -/
inductive LookupOutcome
  | success (st : Option JsString)
  | failure
  deriving DecidableEq, Repr

/-- The subscription's next-callback:
`this.cameraState = state?.cameraPosition || null`. -/
def onLookupNext (st : Option JsString) (c : Component) : Component :=
  { c with cameraState := st }

/-- The subscription's completion callback: `this.loadingState = false`,
then `this.camera ? this.setCameraState() : null`.  Propagates the
exception `setCameraState` may throw (`JSON.parse`). -/
def onLookupComplete (c : Component) : Except Unit Component :=
  let c := { c with loadingState := false }
  match c.camera with
  | some cam => (setCameraStateCam c.cameraState cam).map
      fun cam2 => { c with camera := some cam2 }
  | none => .ok c

/-- Deliver a lookup outcome to the component: `next` then `complete` for a
success, only the empty error handler `(error) => {}` for a failure. -/
def deliverLookup (out : LookupOutcome) (c : Component) :
    Except Unit Component :=
  match out with
  | .success st => onLookupComplete (onLookupNext st c)
  | .failure => .ok c

/-- `createScene` (the camera-relevant part): constructs
`new THREE.PerspectiveCamera(100, this.aspectRatio, 1, 1000)` and calls
`setCameraState()` on it.  The scene object, background colour and
environment texture are rendering-library state none of the claims
observe.  `aspect` is the canvas's measured aspect ratio. -/
def createScene (aspect : ℚ) (c : Component) : Except Unit Component :=
  let cam := newPerspectiveCamera 100 aspect 1 1000
  (setCameraStateCam c.cameraState cam).map
    fun cam2 => { c with camera := some cam2 }

/-- Run where the lookup completes before the surface initializes: the
subscription callbacks fire during `ngOnInit`, then `ngAfterViewInit`
runs `createScene`. -/
def runLookupFirst (out : LookupOutcome) (aspect : ℚ) :
    Except Unit Component :=
  deliverLookup out initialComponent >>= createScene aspect

/-- Run where the surface initializes before the lookup completes:
`ngAfterViewInit` runs `createScene` while `cameraState` is still
undefined, and the subscription callbacks fire afterwards. -/
def runSurfaceFirst (out : LookupOutcome) (aspect : ℚ) :
    Except Unit Component :=
  createScene aspect initialComponent >>= deliverLookup out

/-- A lookup outcome is well formed when it does not carry a stored string
that `JSON.parse` rejects; every state the application itself persists is
`JSON.stringify` of a 16-number array, hence well formed. -/
def LookupOutcome.WellFormed : LookupOutcome → Prop
  | .success (some .notJson) => False
  | _ => True

instance : DecidablePred LookupOutcome.WellFormed := by
  intro out
  unfold LookupOutcome.WellFormed
  match out with
  | .success (some .notJson) => exact inferInstanceAs (Decidable False)
  | .success (some (.jsonArr _)) => exact inferInstanceAs (Decidable True)
  | .success none => exact inferInstanceAs (Decidable True)
  | .failure => exact inferInstanceAs (Decidable True)

/-!
Disposal and the per-frame loop.  `animate` runs an immediately-invoked
`render` closure whose first statement is `requestAnimationFrame(render)`,
so every execution of the frame callback re-schedules itself; nothing in
the component ever calls `cancelAnimationFrame`.  `ngOnDestroy` calls
`saveCurrentScene()` (one persistence write of the serialized camera
matrix) and then disposes renderer, controls, draco loader and PMREM
generator — library resource releases that do not touch the modelled
state and do not cancel the scheduled frame callback.
-/

/-- The world around the component: whether a `requestAnimationFrame`
callback of the render loop is currently queued, the persistence writes
issued so far (their payloads, in order), how many frame callbacks have
executed, and whether `ngOnDestroy` has run. -/
structure World where
  comp : Component
  framePending : Bool
  writes : List JsString
  framesRun : ℕ
  destroyed : Bool
  deriving DecidableEq, Repr

/-- `animate()`: the IIFE executes `render` once, which immediately queues
the next frame callback via `requestAnimationFrame` and runs the frame
body (mixer/controls/renderer updates — library internals). -/
def animateW (w : World) : World :=
  { w with framePending := true, framesRun := w.framesRun + 1 }

/-- A queued frame callback fires: it first re-queues itself
(`requestAnimationFrame(render)` is the first statement of `render`) and
then runs the frame body.  With no callback queued nothing happens. -/
def frameW (w : World) : World :=
  if w.framePending then
    { w with framePending := true, framesRun := w.framesRun + 1 }
  else w

/-- `saveCurrentScene()`: one persistence write whose payload is
`JSON.stringify(this.camera.matrix.toArray())`; reading `this.camera`
while it is still undefined would throw. -/
def saveCurrentSceneW (w : World) : Except Unit World :=
  match w.comp.camera with
  | some cam => .ok { w with writes := w.writes ++ [serializeCamera cam] }
  | none => .error ()

/-- `ngOnDestroy()`: `saveCurrentScene()` followed by the library
`dispose()` calls.  No `cancelAnimationFrame`: `framePending` is left
as it was. -/
def ngOnDestroyW (w : World) : Except Unit World :=
  (saveCurrentSceneW w).map fun w2 => { w2 with destroyed := true }

/-- `beforeunloadHandler()`: calls `saveCurrentScene()` only. -/
def beforeunloadW (w : World) : Except Unit World := saveCurrentSceneW w

end BookScene

namespace AppRouting

/-- The eagerly declared view components of the route table. -/
inductive View
  | about
  | notFound
  deriving DecidableEq, Repr

/-- The lazily loaded feature module of the `scene` route. -/
inductive LazyModule
  | sceneModule
  deriving DecidableEq, Repr

/-- What a route entry maps its path to. -/
inductive RouteTarget
  | component (v : View)
  | loadChildren (m : LazyModule)
  | redirectTo (path : String)
  deriving DecidableEq, Repr

/-- One entry of the `Routes` array; `pathMatchFull` is `true` exactly
when the entry declares `pathMatch: 'full'`. -/
structure Route where
  path : String
  target : RouteTarget
  pathMatchFull : Bool := false
  deriving DecidableEq, Repr

/-- The `routes` constant of `app-routing.module.ts`, in source order. -/
def routes : List Route :=
  [ { path := "about", target := .component .about },
    { path := "scene", target := .loadChildren .sceneModule },
    { path := "404", target := .component .notFound },
    { path := "", target := .redirectTo "scene", pathMatchFull := true },
    { path := "**", target := .redirectTo "404" } ]

/-- Modelled from the spec: the router resolves a URL against the table
top-down, first match wins; `**` matches every URL; an empty path with
`pathMatch: 'full'` matches only the empty URL (and without it matches
any URL as a prefix); other entries match the equal one-segment URL.
(The router itself is framework code outside this repository.) -/
def matchesRoute (r : Route) (url : String) : Bool :=
  if r.path = "**" then true
  else if r.path = "" then (if r.pathMatchFull then url = "" else true)
  else url = r.path

/-- First matching entry's target for a URL. -/
def matchUrl (url : String) : Option RouteTarget :=
  (routes.find? fun r => matchesRoute r url).map Route.target

/-- The view a navigation finally activates. -/
inductive Resolved
  | view (v : View)
  | lazyView (m : LazyModule)
  deriving DecidableEq, Repr

/-- Resolve a URL, following redirects (with fuel, since a route table
could in principle loop; this table needs at most one redirect). -/
def resolve : ℕ → String → Option Resolved
  | 0, _ => none
  | fuel + 1, url =>
    match matchUrl url with
    | some (.component v) => some (.view v)
    | some (.loadChildren m) => some (.lazyView m)
    | some (.redirectTo p) => resolve fuel p
    | none => none

end AppRouting

namespace BookScene

/-- A running camera as used by the concrete disposal scenario. -/
def c1Camera : Camera := newPerspectiveCamera 100 1 1 1000

/-- A component in the Running state (asset loaded, lookup finished). -/
def c1Component : Component :=
  { camera := some c1Camera
    cameraState := none
    loadingProgress := none
    loadingState := false }

/-- The world of the concrete disposal scenario before `animate` runs. -/
def c1World : World :=
  { comp := c1Component
    framePending := false
    writes := []
    framesRun := 0
    destroyed := false }

/-- The world right after `animate` and then `ngOnDestroy` have run. -/
def c1Disposed : World :=
  { comp := c1Component
    framePending := true
    writes := [serializeCamera c1Camera]
    framesRun := 1
    destroyed := true }

/-- A fresh camera used by the malformed-state scenario. -/
def c8Camera : Camera := newPerspectiveCamera 100 1 1 1000

/-- The camera both lookup-failure and empty-lookup runs produce. -/
def c7Camera : Camera :=
  { newPerspectiveCamera 100 1 1 1000 with position := defaultPosition }

/-- Final component of the lookup-failure run (aspect ratio 1). -/
def c7ErrComp : Component :=
  { camera := some c7Camera
    cameraState := none
    loadingProgress := some 1
    loadingState := true }

/-- Final component of the successful-but-empty lookup run (aspect 1). -/
def c7EmptyComp : Component :=
  { camera := some c7Camera
    cameraState := none
    loadingProgress := some 1
    loadingState := false }

/-- `Matrix4.fromArray` of a 16-entry array is that array. -/
theorem fromArray_eq_of_length (xs : List JVal) (h : xs.length = 16) :
    fromArray xs = xs := by
  apply List.ext_getElem?
  intro i
  rw [fromArray, List.getElem?_map]
  by_cases hi : i < 16
  · have hlt : i < xs.length := by omega
    rw [List.getElem?_range hi]
    simp [List.getElem?_eq_getElem hlt, Option.join]
  · rw [List.getElem?_eq_none (by simpa using hi),
      List.getElem?_eq_none (by omega : xs.length ≤ i)]
    rfl

/-- C2: for every valid serialized transform `T` (exactly 16 numbers),
restoring the camera from `T` (parse, load into the matrix, decompose)
and then persisting serializes back to `T`; restoring again from the
persisted value leaves the camera identical (round-trip law).  Position
and orientation are determined by the matrix, which round-trips. -/
theorem C2_round_trip (T : List ℚ) (cam : Camera) (h : T.length = 16) :
    setCameraStateCam (some (.jsonArr (T.map some))) cam =
      .ok (restoreCam (T.map some) cam) ∧
    serializeCamera (restoreCam (T.map some) cam) = .jsonArr (T.map some) ∧
    restoreCam (T.map some) (restoreCam (T.map some) cam) =
      restoreCam (T.map some) cam := by
  have hfa : fromArray (T.map some) = T.map some :=
    fromArray_eq_of_length _ (by simpa using h)
  exact ⟨rfl, by simp [serializeCamera, restoreCam, hfa], rfl⟩

/-- C2 witness: the round trip evaluated on a concrete 16-entry transform. -/
theorem C2_round_trip_witness :
    ([(0:ℚ), 1, 2, 3, 4, 5, 6, 7, 8, 9, 10, 11, 12, 13, 14, 15]).length = 16 ∧
    serializeCamera
        (restoreCam ([(0:ℚ), 1, 2, 3, 4, 5, 6, 7, 8, 9, 10, 11, 12, 13, 14, 15].map some)
          (newPerspectiveCamera 100 1 1 1000)) =
      .jsonArr ([(0:ℚ), 1, 2, 3, 4, 5, 6, 7, 8, 9, 10, 11, 12, 13, 14, 15].map some) :=
  ⟨by decide,
    (C2_round_trip [0, 1, 2, 3, 4, 5, 6, 7, 8, 9, 10, 11, 12, 13, 14, 15]
      (newPerspectiveCamera 100 1 1 1000) (by decide)).2.1⟩

/-- C5: with a camera present, each arrow-key key-up changes exactly one
position axis by exactly 5 units (Right x+5, Left x-5, Up y+5, Down y-5)
and nothing else in the component; with no camera yet, any key event is a
no-op. -/
theorem C5_arrow_keys (c : Component) (cam : Camera) (x y z : ℚ)
    (hc : c.camera = some cam)
    (hp : cam.position = ⟨some x, some y, some z⟩) :
    keyEvent RIGHT_ARROW c =
      { c with camera := some { cam with position := ⟨some (x + 5), some y, some z⟩ } } ∧
    keyEvent LEFT_ARROW c =
      { c with camera := some { cam with position := ⟨some (x - 5), some y, some z⟩ } } ∧
    keyEvent UP_ARROW c =
      { c with camera := some { cam with position := ⟨some x, some (y + 5), some z⟩ } } ∧
    keyEvent DOWN_ARROW c =
      { c with camera := some { cam with position := ⟨some x, some (y - 5), some z⟩ } } ∧
    ∀ key d, Component.camera d = none → keyEvent key d = d := by
  refine ⟨?_, ?_, ?_, ?_, fun key d hd => by simp [keyEvent, hd]⟩ <;>
    simp [keyEvent, hc, hp, RIGHT_ARROW, LEFT_ARROW, UP_ARROW, DOWN_ARROW, jAdd, jSub]

/-- C5 witness: arrow keys evaluated on a concrete running component. -/
theorem C5_arrow_keys_witness :
    c1Component.camera = some c1Camera ∧
    c1Camera.position = ⟨some 0, some 0, some 0⟩ ∧
    keyEvent RIGHT_ARROW c1Component =
      { c1Component with
        camera := some { c1Camera with position := ⟨some (0 + 5), some 0, some 0⟩ } } :=
  ⟨rfl, rfl, (C5_arrow_keys c1Component c1Camera 0 0 0 rfl rfl).1⟩

/-- C10: a key-up whose key is none of the four arrow keys leaves the
component (camera position included) completely unchanged — the switch
has no default case. -/
theorem C10_unlisted_key_noop (key : String) (c : Component)
    (h1 : key ≠ RIGHT_ARROW) (h2 : key ≠ LEFT_ARROW)
    (h3 : key ≠ UP_ARROW) (h4 : key ≠ DOWN_ARROW) :
    keyEvent key c = c := by
  cases hc : c.camera with
  | none => simp [keyEvent, hc]
  | some cam => simp [keyEvent, hc, h1, h2, h3, h4]

/-- C10 witness: a concrete unlisted key is a no-op on a running
component. -/
theorem C10_unlisted_key_witness :
    "a" ≠ RIGHT_ARROW ∧ keyEvent "a" c1Component = c1Component :=
  ⟨by decide,
    C10_unlisted_key_noop "a" c1Component (by decide) (by decide) (by decide)
      (by decide)⟩

/-- C3: for every well-formed lookup result, the run where the lookup
completes before the surface initializes and the run where it completes
afterwards produce identical final components (in particular identical
cameras); and when a stored value exists it is the one applied to the
camera in both orders. -/
theorem C3_order_independent (aspect : ℚ) (out : LookupOutcome)
    (h : out.WellFormed) :
    runLookupFirst out aspect = runSurfaceFirst out aspect ∧
    ∀ xs,
      (runLookupFirst (.success (some (.jsonArr xs))) aspect).map Component.camera =
        .ok (some (restoreCam xs (newPerspectiveCamera 100 aspect 1 1000))) := by
  refine ⟨?_, fun xs => rfl⟩
  match out with
  | .failure => rfl
  | .success none => rfl
  | .success (some (.jsonArr xs)) => rfl
  | .success (some .notJson) => exact absurd h (by simp [LookupOutcome.WellFormed])

/-- C3 witness: both orders evaluated on a concrete stored transform. -/
theorem C3_order_independent_witness :
    LookupOutcome.WellFormed (.success (some (.jsonArr [some 7]))) ∧
    runLookupFirst (.success (some (.jsonArr [some 7]))) 2 =
      runSurfaceFirst (.success (some (.jsonArr [some 7]))) 2 :=
  ⟨by decide,
    (C3_order_independent 2 (.success (some (.jsonArr [some 7]))) (by decide)).1⟩

/-- C4: a progress event reports exactly `loaded / total * 100` once the
lookup-completion flag has been cleared, and that quantity reduced by the
fixed offset 5 while it is still set; the completion callback of the
lookup is the only place the flag is cleared. -/
theorem C4_progress_formula (c : Component) (loaded total : ℚ)
    (h : 0 < total) :
    (c.loadingState = false →
      (onProgress loaded total c).loadingProgress = some (loaded / total * 100)) ∧
    (c.loadingState = true →
      (onProgress loaded total c).loadingProgress =
        some (loaded / total * 100 - 5)) ∧
    ∀ c2 c3, onLookupComplete c2 = .ok c3 → c3.loadingState = false := by
  refine ⟨fun hs => by simp [onProgress, hs], fun hs => by simp [onProgress, hs],
    fun c2 c3 hc => ?_⟩
  cases hcam : c2.camera with
  | none =>
    simp only [onLookupComplete, hcam, Except.ok.injEq] at hc
    subst hc
    rfl
  | some cam =>
    cases hst : setCameraStateCam c2.cameraState cam with
    | ok cam2 =>
      simp only [onLookupComplete, hcam, hst, Except.map, Except.ok.injEq] at hc
      subst hc
      rfl
    | error e =>
      simp only [onLookupComplete, hcam, hst, Except.map] at hc
      cases hc

/-- C4 witness: concrete progress events before and after completion. -/
theorem C4_progress_witness :
    (0 : ℚ) < 200 ∧
    (onProgress 50 200 c7EmptyComp).loadingProgress = some (50 / 200 * 100) ∧
    (onProgress 50 200 c7ErrComp).loadingProgress = some (50 / 200 * 100 - 5) :=
  ⟨by norm_num,
    (C4_progress_formula c7EmptyComp 50 200 (by norm_num)).1 rfl,
    (C4_progress_formula c7ErrComp 50 200 (by norm_num)).2.1 rfl⟩

/-- C6: when the lookup yields no prior state (or fails), both completion
orders leave the camera constructed and standing at the documented default
position (15, 30, 70); the restored-transform branch runs exactly when a
prior state string exists. -/
theorem C6_default_position (aspect : ℚ) (out : LookupOutcome)
    (h : out = .success none ∨ out = .failure) :
    (runLookupFirst out aspect).map (fun c => c.camera.map Camera.position) =
      .ok (some defaultPosition) ∧
    (runSurfaceFirst out aspect).map (fun c => c.camera.map Camera.position) =
      .ok (some defaultPosition) ∧
    (∀ xs cam, setCameraStateCam (some (.jsonArr xs)) cam = .ok (restoreCam xs cam)) ∧
    ∀ cam, setCameraStateCam none cam = .ok { cam with position := defaultPosition } := by
  rcases h with h | h <;> subst h <;>
    exact ⟨rfl, rfl, fun xs cam => rfl, fun cam => rfl⟩

/-- C6 witness: the empty-lookup run evaluated concretely. -/
theorem C6_default_position_witness :
    ((.success none : LookupOutcome) = .success none ∨
      (.success none : LookupOutcome) = .failure) ∧
    (runLookupFirst (.success none) 1).map (fun c => c.camera.map Camera.position) =
      .ok (some defaultPosition) :=
  ⟨Or.inl rfl, (C6_default_position 1 (.success none) (Or.inl rfl)).1⟩

/-- C1 counterexample: the claim "after disposal no further per-frame
update callback is ever scheduled or executed" is false on the code.
Concretely: starting from a running view whose render loop has begun,
`ngOnDestroy` issues its single write but leaves the
`requestAnimationFrame` callback queued (`framePending` is still `true`
in the disposed world — nothing calls `cancelAnimationFrame`), and when
that callback fires after disposal it executes the frame body and
re-queues itself. -/
theorem C1_frame_after_disposal_counterexample :
    ngOnDestroyW (animateW c1World) = .ok c1Disposed ∧
    c1Disposed.destroyed = true ∧
    c1Disposed.framePending = true ∧
    frameW c1Disposed = { c1Disposed with framesRun := 2 } ∧
    (frameW c1Disposed).framePending = true :=
  ⟨rfl, rfl, rfl, rfl, rfl⟩

/-- C1 amended: every disposal path (`ngOnDestroy` on navigation away,
`beforeunloadHandler` on page unload) issues exactly one persistence
write whose payload serializes the camera matrix at that moment; however
the render loop is not cancelled — a queued frame callback survives
disposal untouched and, whenever it fires, executes and re-queues
itself. -/
theorem C1_disposal_write_once (w : World) (cam : Camera)
    (h : w.comp.camera = some cam) :
    ngOnDestroyW w =
      .ok { w with writes := w.writes ++ [serializeCamera cam], destroyed := true } ∧
    beforeunloadW w = .ok { w with writes := w.writes ++ [serializeCamera cam] } ∧
    ∀ v : World, v.framePending = true →
      frameW v = { v with framesRun := v.framesRun + 1 } := by
  refine ⟨?_, ?_, fun v hv => by simp [frameW, hv]⟩ <;>
    simp [ngOnDestroyW, beforeunloadW, saveCurrentSceneW, h, Except.map]

/-- C1 witness: the amended disposal law evaluated on the concrete
running world. -/
theorem C1_disposal_write_once_witness :
    c1World.comp.camera = some c1Camera ∧
    ngOnDestroyW c1World =
      .ok { c1World with writes := [serializeCamera c1Camera], destroyed := true } :=
  ⟨rfl, (C1_disposal_write_once c1World c1Camera rfl).1⟩

/-- C7 counterexample: the claim that a failed read leads to "the same
subsequent behavior (default camera position, lookup considered
complete) as in the successful-but-empty case" is false on the code: the
RxJS completion callback does not run for an errored subscription, so
`loadingState` is never cleared.  Both runs do give the default camera,
but after the failure the lookup is never considered complete and every
progress report keeps the 5-point offset. -/
theorem C7_error_not_complete_counterexample :
    runLookupFirst .failure 1 = .ok c7ErrComp ∧
    runLookupFirst (.success none) 1 = .ok c7EmptyComp ∧
    c7ErrComp.camera = c7EmptyComp.camera ∧
    c7ErrComp.loadingState = true ∧
    c7EmptyComp.loadingState = false ∧
    (onProgress 1 1 c7ErrComp).loadingProgress = some 95 ∧
    (onProgress 1 1 c7EmptyComp).loadingProgress = some 100 := by
  refine ⟨rfl, rfl, rfl, rfl, rfl, ?_, ?_⟩ <;>
    norm_num [onProgress, c7ErrComp, c7EmptyComp]

/-- C7 amended: a persistence-read failure is non-fatal and surfaces no
error (the error handler is empty and leaves the component untouched),
and the camera ends at the same default position as in the
successful-but-empty case in either completion order; but unlike that
case the lookup is never marked complete — `loadingState` stays `true`,
so the progress offset keeps applying. -/
theorem C7_error_silent_default (aspect : ℚ) :
    (runLookupFirst .failure aspect).map Component.camera =
      (runLookupFirst (.success none) aspect).map Component.camera ∧
    (runSurfaceFirst .failure aspect).map Component.camera =
      (runSurfaceFirst (.success none) aspect).map Component.camera ∧
    (runLookupFirst .failure aspect).map Component.loadingState = .ok true ∧
    (runSurfaceFirst .failure aspect).map Component.loadingState = .ok true ∧
    deliverLookup .failure initialComponent = .ok initialComponent :=
  ⟨rfl, rfl, rfl, rfl, rfl⟩

/-- C8 counterexample: the claim that a malformed persisted state "fails
closed: the camera falls back to the default position and no parse error
propagates" is false on the code: a stored string `JSON.parse` rejects
makes `setCameraState` throw (the camera is not set to anything), and a
parsed array of the wrong arity (here 3 entries) is loaded as-is: the
decomposed position is entirely `undefined` — not the default — and the
matrix tail entries are `undefined`. -/
theorem C8_no_fail_closed_counterexample :
    setCameraStateCam (some .notJson) c8Camera = .error () ∧
    setCameraStateCam (some (.jsonArr [some 1, some 2, some 3])) c8Camera =
      .ok (restoreCam [some 1, some 2, some 3] c8Camera) ∧
    (restoreCam [some 1, some 2, some 3] c8Camera).position = ⟨none, none, none⟩ ∧
    (restoreCam [some 1, some 2, some 3] c8Camera).position ≠ defaultPosition ∧
    mEntry (restoreCam [some 1, some 2, some 3] c8Camera).matrix 15 = none := by
  refine ⟨rfl, rfl, rfl, ?_, rfl⟩
  decide

/-- C8 amended: malformed persisted state is not validated.  A stored
string that is not valid JSON makes the restore operation throw (the
parse error propagates; no fallback to the default position happens), and
any parseable array — whatever its arity — is applied to the matrix
as-is; when it has 12 or fewer entries the decomposed camera position is
entirely `undefined`, not the default position. -/
theorem C8_malformed_not_validated (cam : Camera) (xs : List JVal)
    (h : xs.length ≤ 12) :
    setCameraStateCam (some .notJson) cam = .error () ∧
    (∀ ys, setCameraStateCam (some (.jsonArr ys)) cam = .ok (restoreCam ys cam)) ∧
    (restoreCam xs cam).position = ⟨none, none, none⟩ := by
  refine ⟨rfl, fun ys => rfl, ?_⟩
  have h12 : xs[12]? = none := List.getElem?_eq_none (by omega)
  have h13 : xs[13]? = none := List.getElem?_eq_none (by omega)
  have h14 : xs[14]? = none := List.getElem?_eq_none (by omega)
  simp [restoreCam, decomposePos, mEntry, fromArray, h12, h13, h14, Option.join]

/-- C8 witness: the amended malformed-state behaviour evaluated on a
concrete wrong-arity array. -/
theorem C8_malformed_not_validated_witness :
    ([some 1, some 2, some 3] : List JVal).length ≤ 12 ∧
    setCameraStateCam (some .notJson) c8Camera = .error () :=
  ⟨by decide, (C8_malformed_not_validated c8Camera [some 1, some 2, some 3]
    (by decide)).1⟩

end BookScene

namespace AppRouting

/-- C9: the route table sends `about` to the about view, `scene` to the
lazily loaded scene module, `404` to the not-found view; the empty path
redirects (full match) to `scene`, and every other path falls through to
the wildcard redirect and lands on the not-found view. -/
theorem C9_route_table (url : String)
    (h1 : url ≠ "about") (h2 : url ≠ "scene") (h3 : url ≠ "404")
    (h4 : url ≠ "") :
    resolve 2 "about" = some (.view .about) ∧
    resolve 2 "scene" = some (.lazyView .sceneModule) ∧
    resolve 2 "404" = some (.view .notFound) ∧
    resolve 2 "" = some (.lazyView .sceneModule) ∧
    resolve 2 url = some (.view .notFound) := by
  refine ⟨rfl, rfl, rfl, rfl, ?_⟩
  simp [resolve, matchUrl, routes, matchesRoute, List.find?, h1, h2, h3, h4]

/-- C9 witness: a concrete undefined path lands on the not-found view. -/
theorem C9_route_table_witness :
    "bogus" ≠ "about" ∧ resolve 2 "bogus" = some (.view .notFound) :=
  ⟨by decide,
    (C9_route_table "bogus" (by decide) (by decide) (by decide) (by decide)).2.2.2.2⟩

end AppRouting
